import Mathlib

/-!
Verification development for the atlassian-cloud-backup repository.

The Python sources are shallowly embedded as executable Lean functions.
Network and filesystem collaborators (HTTP responses, file sizes, the
poll endpoint) are passed in explicitly as environment values, so every
function here is a pure translation of the corresponding Python control
flow.  Timestamps are modelled as integers counting epoch milliseconds,
file contents as their byte counts.
-/

/-! ## Resumable downloader: utils/http_utils.py, download_file (lines 31-170)

The network environment supplies, for each attempt index, the response the
server gives on that attempt.  The destination file is modelled by its size
(`none` when the file does not exist).  Sleeps and the state at the start of
each attempt are returned as traces so that retry timing and the on-disk
invariant can be stated.
-/

/-- Retriable network failures caught at line 145 of http_utils.py:
IncompleteRead, ChunkedEncodingError, ConnectionError, Timeout. -/
inductive NetErr where
  | incompleteRead
  | chunkedEncoding
  | connectionError
  | timeout
  deriving DecidableEq, Repr

/-- What the server does on one download attempt: raise a retriable error
before any byte arrives, raise an HTTPError from raise_for_status, or
deliver a response with the given status whose body yields the listed
chunk sizes and then either ends cleanly (tail = none) or fails with a
retriable error mid-stream. -/
inductive AttemptResp where
  | raiseRetriable (e : NetErr)
  | raiseHttp (status : Nat)
  | stream (status : Nat) (chunks : List Nat) (tail : Option NetErr)
  deriving DecidableEq, Repr

/-- State of a download session: the in-memory counter
bytes_successfully_written_to_disk and the destination file size
(none when the file does not exist). -/
structure DlState where
  bytesOnDisk : Nat
  file : Option Nat
  deriving DecidableEq, Repr

/-- File open mode chosen at lines 84-102: write-truncate or append. -/
inductive Mode where
  | wb
  | ab
  deriving DecidableEq, Repr

/-- Modelled from the spec: the helper _prepare_range_request is called at
line 75 of http_utils.py but its definition is not in the source tree.
Per the spec it sends a Range header requesting bytes from bytesOnDisk
onward iff bytesOnDisk > 0, and no Range header otherwise.  The header is
modelled as the optional start offset. -/
def prepareRangeRequest (bytesOnDisk : Nat) : Option Nat :=
  if bytesOnDisk > 0 then some bytesOnDisk else none

/-- Response interpretation, http_utils.py lines 84-102.  Input is the
current_expected_on_disk counter and the response status; output is the
file open mode together with the common new value assigned to both
bytes_successfully_written_to_disk and current_expected_on_disk.
With a Range request (counter positive): 206 keeps the counter and opens
for append, 200 and every other status reset the counter to 0 and open
for overwrite.  Without a Range request the mode is overwrite and the
counter is (re)set to 0 (line 102). -/
def interpretResponse (currentExpectedOnDisk : Nat) (status : Nat) : Mode × Nat :=
  if currentExpectedOnDisk > 0 then
    if status = 206 then (Mode.ab, currentExpectedOnDisk)
    else if status = 200 then (Mode.wb, 0)
    else (Mode.wb, 0)
  else (Mode.wb, 0)

/-- Size of the destination file right after open(filename, mode) at
line 109: truncated to 0 for wb, kept (created empty if absent) for ab. -/
def openDest (m : Mode) (file : Option Nat) : Nat :=
  match m with
  | Mode.wb => 0
  | Mode.ab => file.getD 0

/-- One chunk write, http_utils.py lines 110-125.  The accumulator is
(bytes_successfully_written_to_disk, destination file size); empty chunks
are skipped (line 111).  The counter branches mirror lines 117-123. -/
def writeChunk (m : Mode) (currentExpected : Nat) (acc : Nat × Nat) (len : Nat) : Nat × Nat :=
  if len = 0 then acc
  else
    let size := acc.2 + len
    let counter :=
      if m = Mode.wb ∧ currentExpected = 0 then acc.1 + len
      else if m = Mode.ab then acc.1 + len
      else acc.1
    (counter, size)

/-- Stream the whole body: fold writeChunk over the delivered chunks. -/
def writeChunks (m : Mode) (currentExpected : Nat) (counter size : Nat)
    (chunks : List Nat) : Nat × Nat :=
  chunks.foldl (writeChunk m currentExpected) (counter, size)

/-- Re-stat of the destination after a retriable failure, http_utils.py
lines 148-153: the counter becomes the actual file size, 0 when the file
does not exist. -/
def restat (st : DlState) : DlState :=
  { st with bytesOnDisk := st.file.getD 0 }

/-- Outcome of one loop iteration: clean return, a caught retriable error
(loop continues), or an HTTPError (re-raised immediately, line 166). -/
inductive AttemptOutcome where
  | success
  | retriable (e : NetErr)
  | httpError (status : Nat)
  deriving DecidableEq, Repr

/-- One iteration of the attempt loop body (http_utils.py lines 62-166)
on the given session state and server response.  Returns the outcome and
the state the loop continues with (meaningful for the retriable case,
where the except block has already re-statted the file). -/
def runAttempt (st : DlState) (resp : AttemptResp) : AttemptOutcome × DlState :=
  match resp with
  | AttemptResp.raiseRetriable e => (AttemptOutcome.retriable e, restat st)
  | AttemptResp.raiseHttp s => (AttemptOutcome.httpError s, st)
  | AttemptResp.stream status chunks tail =>
    let mr := interpretResponse st.bytesOnDisk status
    let size0 := openDest mr.1 st.file
    let cs := writeChunks mr.1 mr.2 mr.2 size0 chunks
    let st2 : DlState := { bytesOnDisk := cs.1, file := some cs.2 }
    match tail with
    | none => (AttemptOutcome.success, st2)
    | some e => (AttemptOutcome.retriable e, restat st2)

/-- Result of download_file: the filename on success, an immediate
HTTPError, the re-raised last retriable failure after the final attempt
(line 161), or the defensive unreachable exit after the loop (line 170). -/
inductive DlResult where
  | ok (filename : String)
  | httpError (status : Nat)
  | exhausted (e : NetErr)
  | loopExit
  deriving DecidableEq, Repr

/-- Attempt loop of download_file, http_utils.py lines 61-166.
max_retries = 5 (line 51); the backoff delay slept before retrying
attempt a is initial_delay_seconds * 2 ^ a = 2 ^ a seconds (line 156).
Returns the result, the list of sleeps performed, and the session state
at the start of each attempt made. -/
def downloadGo (resps : Nat → AttemptResp) (filename : String) (maxRetries : Nat) :
    Nat → Nat → DlState → DlResult × List Nat × List DlState
  | _, 0, _ => (DlResult.loopExit, [], [])
  | attempt, fuel+1, st =>
    match (runAttempt st (resps attempt)).1 with
    | AttemptOutcome.success => (DlResult.ok filename, [], [st])
    | AttemptOutcome.httpError s => (DlResult.httpError s, [], [st])
    | AttemptOutcome.retriable e =>
      if attempt < maxRetries then
        let rest := downloadGo resps filename maxRetries (attempt+1) fuel
          ((runAttempt st (resps attempt)).2)
        (rest.1, 2 ^ attempt :: rest.2.1, st :: rest.2.2)
      else (DlResult.exhausted e, [], [st])

/-- download_file, http_utils.py lines 31-170: stat the destination
(lines 55-59: size if it exists, else 0) and run up to
max_retries + 1 = 6 attempts. -/
def download_file (resps : Nat → AttemptResp) (filename : String) (initialFile : Option Nat) :
    DlResult × List Nat × List DlState :=
  downloadGo resps filename 5 0 6 { bytesOnDisk := initialFile.getD 0, file := initialFile }

/-- The retriable error an attempt response produces, if any. -/
def respFailure : AttemptResp → Option NetErr
  | AttemptResp.raiseRetriable e => some e
  | AttemptResp.stream _ _ (some e) => some e
  | AttemptResp.stream _ _ none => none
  | AttemptResp.raiseHttp _ => none

/-- An attempt response that streams to the end without error. -/
def respSucceeds : AttemptResp → Bool
  | AttemptResp.stream _ _ none => true
  | _ => false

theorem runAttempt_retriable (st : DlState) (r : AttemptResp) (e : NetErr)
    (h : respFailure r = some e) :
    (runAttempt st r).1 = AttemptOutcome.retriable e := by
  cases r with
  | raiseRetriable e2 =>
    simp [respFailure] at h
    simp [runAttempt, h]
  | raiseHttp s => simp [respFailure] at h
  | stream status chunks tail =>
    cases tail with
    | none => simp [respFailure] at h
    | some e2 =>
      simp [respFailure] at h
      subst h
      simp [runAttempt]

theorem runAttempt_success (st : DlState) (r : AttemptResp)
    (h : respSucceeds r = true) :
    (runAttempt st r).1 = AttemptOutcome.success := by
  cases r with
  | raiseRetriable e2 => simp [respSucceeds] at h
  | raiseHttp s => simp [respSucceeds] at h
  | stream status chunks tail =>
    cases tail with
    | none => simp [runAttempt]
    | some e2 => simp [respSucceeds] at h

theorem downloadGo_all_fail (resps : Nat → AttemptResp) (filename : String)
    (err : Nat → NetErr) (hfail : ∀ i, respFailure (resps i) = some (err i)) :
    ∀ fuel attempt st, attempt + fuel = 6 → attempt ≤ 5 →
      (downloadGo resps filename 5 attempt fuel st).1 = DlResult.exhausted (err 5) ∧
      (downloadGo resps filename 5 attempt fuel st).2.1 =
        (List.range' attempt (fuel - 1)).map (fun i => 2 ^ i) ∧
      (downloadGo resps filename 5 attempt fuel st).2.2.length = fuel := by
  intro fuel
  induction fuel with
  | zero => intro attempt st h1 h2; omega
  | succ f ih =>
    intro attempt st h1 h2
    have hr := runAttempt_retriable st (resps attempt) (err attempt) (hfail attempt)
    rcases Nat.eq_zero_or_pos f with hf | hf
    · subst hf
      have ha : attempt = 5 := by omega
      subst ha
      simp [downloadGo, hr]
    · have ha : attempt < 5 := by omega
      have ihr := ih (attempt + 1) ((runAttempt st (resps attempt)).2) (by omega) (by omega)
      simp only [downloadGo, hr, if_pos ha]
      refine ⟨ihr.1, ?_, ?_⟩
      · have hf1 : f - 1 + 1 = f := by omega
        simp only [ihr.2.1]
        rw [show f + 1 - 1 = (f - 1) + 1 by omega, List.range'_succ]
        simp
      · simp [ihr.2.2]

theorem downloadGo_succeeds (resps : Nat → AttemptResp) (filename : String)
    (err : Nat → NetErr) (k : Nat)
    (hfail : ∀ i, i < k → respFailure (resps i) = some (err i))
    (hsucc : respSucceeds (resps k) = true) :
    ∀ fuel attempt st, attempt + fuel = 6 → attempt ≤ k → k ≤ 5 →
      (downloadGo resps filename 5 attempt fuel st).1 = DlResult.ok filename ∧
      (downloadGo resps filename 5 attempt fuel st).2.1 =
        (List.range' attempt (k - attempt)).map (fun i => 2 ^ i) ∧
      (downloadGo resps filename 5 attempt fuel st).2.2.length = k - attempt + 1 := by
  intro fuel
  induction fuel with
  | zero => intro attempt st h1 h2 h3; omega
  | succ f ih =>
    intro attempt st h1 h2 h3
    rcases Nat.lt_or_ge attempt k with ha | ha
    · have hr := runAttempt_retriable st (resps attempt) (err attempt) (hfail attempt ha)
      have ha5 : attempt < 5 := by omega
      have ihr := ih (attempt + 1) ((runAttempt st (resps attempt)).2) (by omega) (by omega) h3
      simp only [downloadGo, hr, if_pos ha5]
      refine ⟨ihr.1, ?_, ?_⟩
      · simp only [ihr.2.1]
        rw [show k - attempt = (k - (attempt + 1)) + 1 by omega, List.range'_succ]
        simp
      · simp only [List.length_cons, ihr.2.2]
        omega
    · have hak : attempt = k := by omega
      subst hak
      have hr := runAttempt_success st (resps attempt) hsucc
      simp [downloadGo, hr]

/-- C2: if every attempt fails with a retriable error, download_file makes
exactly 6 attempts (1 initial plus 5 retries), sleeps 1s, 2s, 4s, 8s, 16s
between consecutive attempts, and ends by re-raising the retriable failure
of the last (6th) attempt; if instead the first success happens on attempt
k (0-based, after k retriable failures), it returns the destination path
having made k+1 attempts and slept only the first k delays. -/
theorem claim_C2 (resps : Nat → AttemptResp) (filename : String) (init : Option Nat)
    (err : Nat → NetErr) :
    ((∀ i, respFailure (resps i) = some (err i)) →
      (download_file resps filename init).1 = DlResult.exhausted (err 5) ∧
      (download_file resps filename init).2.1 = [1, 2, 4, 8, 16] ∧
      (download_file resps filename init).2.2.length = 6) ∧
    (∀ k, k ≤ 5 → (∀ i, i < k → respFailure (resps i) = some (err i)) →
      respSucceeds (resps k) = true →
      (download_file resps filename init).1 = DlResult.ok filename ∧
      (download_file resps filename init).2.1 =
        (List.range k).map (fun i => 2 ^ i) ∧
      (download_file resps filename init).2.2.length = k + 1) := by
  constructor
  · intro hfail
    have h := downloadGo_all_fail resps filename err hfail 6 0
      { bytesOnDisk := init.getD 0, file := init } (by omega) (by omega)
    refine ⟨h.1, ?_, h.2.2⟩
    rw [show (download_file resps filename init).2.1 =
      (downloadGo resps filename 5 0 6
        { bytesOnDisk := init.getD 0, file := init }).2.1 from rfl, h.2.1]
    decide
  · intro k hk hfail hsucc
    have h := downloadGo_succeeds resps filename err k hfail hsucc 6 0
      { bytesOnDisk := init.getD 0, file := init } (by omega) (by omega) hk
    refine ⟨h.1, ?_, ?_⟩
    · rw [show (download_file resps filename init).2.1 =
        (downloadGo resps filename 5 0 6
          { bytesOnDisk := init.getD 0, file := init }).2.1 from rfl, h.2.1]
      simp [List.range_eq_range']
    · rw [show (download_file resps filename init).2.2 =
        (downloadGo resps filename 5 0 6
          { bytesOnDisk := init.getD 0, file := init }).2.2 from rfl]
      rw [h.2.2]
      omega

theorem claim_C2_witness :
    (download_file (fun i => if i < 3 then AttemptResp.raiseRetriable NetErr.connectionError
        else AttemptResp.stream 200 [10] none) "jira.zip" none).1 =
      DlResult.ok "jira.zip" ∧
    (download_file (fun i => if i < 3 then AttemptResp.raiseRetriable NetErr.connectionError
        else AttemptResp.stream 200 [10] none) "jira.zip" none).2.1 =
      (List.range 3).map (fun i => 2 ^ i) ∧
    (download_file (fun i => if i < 3 then AttemptResp.raiseRetriable NetErr.connectionError
        else AttemptResp.stream 200 [10] none) "jira.zip" none).2.2.length = 3 + 1 :=
  (claim_C2 (fun i => if i < 3 then AttemptResp.raiseRetriable NetErr.connectionError
      else AttemptResp.stream 200 [10] none) "jira.zip" none
      (fun _ => NetErr.connectionError)).2 3 (by decide)
    (fun i hi => by interval_cases i <;> rfl) (by decide)

/-- C3: interpretation of the response to a (possible) range request.
With a range requested (counter positive), a 206 opens the destination for
append preserving its bytes and keeps the counter; a 200 resets the counter
to 0 and opens for overwrite (truncating to 0 bytes); any other status also
resets to overwrite-from-0.  With no range requested (counter zero) no
Range header is sent and the destination is opened for overwrite with
counter 0. -/
theorem claim_C3 (b status : Nat) (file : Option Nat) :
    (b > 0 → prepareRangeRequest b = some b) ∧
    (b > 0 → status = 206 →
      interpretResponse b status = (Mode.ab, b) ∧ openDest Mode.ab file = file.getD 0) ∧
    (b > 0 → status = 200 →
      interpretResponse b status = (Mode.wb, 0) ∧ openDest Mode.wb file = 0) ∧
    (b > 0 → status ≠ 206 → status ≠ 200 → interpretResponse b status = (Mode.wb, 0)) ∧
    (b = 0 → prepareRangeRequest b = none ∧ interpretResponse b status = (Mode.wb, 0)) := by
  refine ⟨?_, ?_, ?_, ?_, ?_⟩
  · intro hb; simp [prepareRangeRequest, hb]
  · intro hb hs; subst hs; simp [interpretResponse, openDest, hb]
  · intro hb hs; subst hs; simp [interpretResponse, openDest, hb]
  · intro hb h6 h0; simp [interpretResponse, hb, h6, h0]
  · intro hb; subst hb; simp [prepareRangeRequest, interpretResponse]

theorem claim_C3_witness :
    (interpretResponse 4096 206 = (Mode.ab, 4096) ∧ openDest Mode.ab (some 4096) = 4096) ∧
    (interpretResponse 4096 200 = (Mode.wb, 0) ∧ openDest Mode.wb (some 4096) = 0) :=
  ⟨(claim_C3 4096 206 (some 4096)).2.1 (by decide) rfl,
   (claim_C3 4096 200 (some 4096)).2.2.1 (by decide) rfl⟩

theorem runAttempt_retriable_inv (st : DlState) (r : AttemptResp) (e : NetErr)
    (h : (runAttempt st r).1 = AttemptOutcome.retriable e) :
    (runAttempt st r).2.bytesOnDisk = (runAttempt st r).2.file.getD 0 := by
  cases r with
  | raiseRetriable e2 => simp [runAttempt, restat]
  | raiseHttp s => simp [runAttempt] at h
  | stream status chunks tail =>
    cases tail with
    | none => simp [runAttempt] at h
    | some e2 => simp [runAttempt, restat]

theorem downloadGo_inv (resps : Nat → AttemptResp) (filename : String) :
    ∀ fuel attempt st, st.bytesOnDisk = st.file.getD 0 →
      ∀ x ∈ (downloadGo resps filename 5 attempt fuel st).2.2,
        x.bytesOnDisk = x.file.getD 0 := by
  intro fuel
  induction fuel with
  | zero => intro attempt st h x hx; simp [downloadGo] at hx
  | succ f ih =>
    intro attempt st h x hx
    cases hr : (runAttempt st (resps attempt)).1 with
    | success =>
      simp only [downloadGo, hr, List.mem_singleton] at hx
      subst hx; exact h
    | httpError s =>
      simp only [downloadGo, hr, List.mem_singleton] at hx
      subst hx; exact h
    | retriable e =>
      by_cases ha : attempt < 5
      · simp only [downloadGo, hr, if_pos ha, List.mem_cons] at hx
        rcases hx with hx | hx
        · subst hx; exact h
        · exact ih (attempt + 1) ((runAttempt st (resps attempt)).2)
            (runAttempt_retriable_inv st (resps attempt) e hr) x hx
      · simp only [downloadGo, hr, if_neg ha, List.mem_singleton] at hx
        subst hx; exact h

/-- C4: invariant of the download session — at the start of every attempt
made by download_file, the in-memory counter bytes_successfully_written_to_disk
equals the actual size of the destination file (0 when the file does not
exist), because the initial value comes from a stat and every retriable
failure re-stats the file before the next attempt. -/
theorem claim_C4 (resps : Nat → AttemptResp) (filename : String) (init : Option Nat) :
    ∀ st ∈ (download_file resps filename init).2.2,
      st.bytesOnDisk = st.file.getD 0 := by
  intro st hst
  exact downloadGo_inv resps filename 6 0
    { bytesOnDisk := init.getD 0, file := init } rfl st hst

theorem claim_C4_witness :
    (DlState.mk 7 (some 7)).bytesOnDisk = (DlState.mk 7 (some 7)).file.getD 0 :=
  claim_C4 (fun _ => AttemptResp.stream 206 [3] (some NetErr.timeout)) "jira.zip" (some 4)
    (DlState.mk 7 (some 7)) (by decide)

/-! ## Jira client: jira/client.py

The remote Jira instance is modelled by a JiraEnv value giving the outcome
of each REST call the client makes.  Effects record which state-changing
or data-transferring calls happen (trigger, poll, progress query for the
download URL, file download); the initial lastTaskId metadata fetch is not
an effect.  A run result is a delta, a raised error, or divergence of an
unbounded poll loop (the environment supplies only finitely many poll
responses). -/

/-- Outcome of GET /rest/backup/1/export/lastTaskId as consumed by
fetch_last_task_id (jira/client.py lines 68-94): empty body, an integer
body, a non-integer body (RuntimeError raised then caught by the outer
except), or any other exception (also caught). -/
inductive FetchOutcome where
  | empty
  | taskId (n : Int)
  | badText
  | netError
  deriving DecidableEq, Repr

/-- One JSON response of GET /rest/backup/1/export/getProgress as read by
wait_for_completion (lines 156-159): progress defaults to 0 and status to
the empty string, already upper-cased as at line 159. -/
structure PollResp where
  progress : Int
  status : String
  deriving DecidableEq, Repr

/-- Externally visible calls of the Jira client, other than the initial
lastTaskId metadata fetch and the task-info fetch. -/
inductive JEffect where
  | trigger
  | poll (taskId : Int)
  | progressQuery (taskId : Int)
  | download (taskId : Int)
  deriving DecidableEq, Repr

/-- Errors the Jira client can raise: the ValueError of
_check_existing_task line 228, the RuntimeError of trigger_backup
line 133, the RuntimeError of get_download_url line 193, and a failure
propagated out of download_file. -/
inductive JError where
  | missingSubmitted (taskId : Int)
  | noTaskIdFromTrigger
  | noResultField (taskId : Int)
  | downloadFailed (taskId : Int)
  deriving DecidableEq, Repr

/-- Result of running a Jira client operation: a value, a raised error, or
divergence of the unbounded poll loop. -/
inductive JRun (α : Type) where
  | ok (a : α)
  | err (e : JError)
  | hang
  deriving DecidableEq, Repr

/-- The remote environment of one Jira reconcile run. submittedMs is the
optional submitted field of GET /rest/api/3/task/id; pollResps the finite
prefix of getProgress responses observed for a task; triggerTaskId the
taskId field of POST runbackup (none when missing); progressResult the
result field of getProgress used for the download URL; downloadOk whether
download_file succeeds; backupPath the local path from prepare_backup_path. -/
structure JiraEnv where
  fetchResult : FetchOutcome
  submittedMs : Int → Option Int
  pollResps : Int → List PollResp
  triggerTaskId : Option Int
  progressResult : Int → Option String
  downloadOk : Int → Bool
  backupPath : String

/-- The two status fields the Jira client reads from the loaded status map
(jira/client.py lines 46-47); a missing key reads as none. -/
structure MemStatus where
  jira_task_id : Option Int := none
  jira_file : Option String := none
  deriving DecidableEq, Repr

/-- Python truthiness of the optional local file path (line 50: and
local_file): a missing value and the empty string are falsy. -/
def optStrTruthy : Option String → Bool
  | some s => !(s == "")
  | none => false

/-- Status delta returned by the Jira reconcile (the updated dict); either
all three keys are set or the dict is empty. -/
structure JiraDelta where
  last_jira_backup : Option Int := none
  jira_task_id : Option Int := none
  jira_file : Option String := none
  deriving DecidableEq, Repr

/-- Emptiness of the updated dict as tested at line 63 (if not updated). -/
def JiraDelta.isEmpty (d : JiraDelta) : Bool :=
  d.last_jira_backup.isNone && d.jira_task_id.isNone && d.jira_file.isNone

def emptyJiraDelta : JiraDelta := {}

/-- fetch_last_task_id, jira/client.py lines 68-94: empty body yields none;
an integer body yields the id; a non-integer body raises RuntimeError which
the enclosing except catches, returning none; any other exception is caught
and none is returned. -/
def Jira.fetch_last_task_id (env : JiraEnv) : Option Int :=
  match env.fetchResult with
  | FetchOutcome.empty => none
  | FetchOutcome.taskId n => some n
  | FetchOutcome.badText => none
  | FetchOutcome.netError => none

/-- One check of the poll loop body, jira/client.py lines 158-168: terminal
success on status COMPLETE, DONE or SUCCESSFUL or progress equal to 100;
terminal failure on FAILED or ERROR; otherwise keep polling. -/
def Jira.pollStep (r : PollResp) : Option Bool :=
  if r.status = "COMPLETE" ∨ r.status = "DONE" ∨ r.status = "SUCCESSFUL" ∨ r.progress = 100 then
    some true
  else if r.status = "FAILED" ∨ r.status = "ERROR" then some false
  else none

/-- The while-True loop of wait_for_completion over the observed responses;
running out of observed responses means the loop did not terminate in the
observed window. -/
def Jira.waitGo (t : Int) : List PollResp → JRun Bool × List JEffect
  | [] => (JRun.hang, [])
  | r :: rs =>
    match Jira.pollStep r with
    | some b => (JRun.ok b, [JEffect.poll t])
    | none =>
      let rest := Jira.waitGo t rs
      (rest.1, JEffect.poll t :: rest.2)

/-- wait_for_completion, jira/client.py lines 138-170. -/
def Jira.wait_for_completion (env : JiraEnv) (t : Int) : JRun Bool × List JEffect :=
  Jira.waitGo t (env.pollResps t)

/-- download_backup_file together with get_download_url, jira/client.py
lines 172-210: query getProgress for the result field (RuntimeError when
missing or empty, line 193), then run download_file on the servlet URL,
returning the local filename it was given. -/
def Jira.download_backup_file (env : JiraEnv) (t : Int) : JRun String × List JEffect :=
  match env.progressResult t with
  | none => (JRun.err (JError.noResultField t), [JEffect.progressQuery t])
  | some r =>
    if r = "" then (JRun.err (JError.noResultField t), [JEffect.progressQuery t])
    else if env.downloadOk t then
      (JRun.ok env.backupPath, [JEffect.progressQuery t, JEffect.download t])
    else (JRun.err (JError.downloadFailed t), [JEffect.progressQuery t, JEffect.download t])

/-- _check_existing_task, jira/client.py lines 212-252: a missing (or
falsy) submitted field raises ValueError; a task submitted at most 24 hours
before now is polled to completion and on success downloaded, producing the
full delta keyed to the submitted timestamp; an older task, or a failed
poll, leaves the delta empty. -/
def Jira.check_existing_task (env : JiraEnv) (t : Int) (now : Int) :
    JRun JiraDelta × List JEffect :=
  match env.submittedMs t with
  | none => (JRun.err (JError.missingSubmitted t), [])
  | some s =>
    if s = 0 then (JRun.err (JError.missingSubmitted t), [])
    else if now - s ≤ 86400000 then
      match Jira.wait_for_completion env t with
      | (JRun.ok true, effs) =>
        match Jira.download_backup_file env t with
        | (JRun.ok f, effs2) =>
          (JRun.ok { last_jira_backup := some s, jira_task_id := some t, jira_file := some f },
            effs ++ effs2)
        | (JRun.err e, effs2) => (JRun.err e, effs ++ effs2)
        | (JRun.hang, effs2) => (JRun.hang, effs ++ effs2)
      | (JRun.ok false, effs) => (JRun.ok emptyJiraDelta, effs)
      | (JRun.err e, effs) => (JRun.err e, effs)
      | (JRun.hang, effs) => (JRun.hang, effs)
    else (JRun.ok emptyJiraDelta, [])

/-- _create_new_backup together with trigger_backup, jira/client.py
lines 114-136 and 254-277: trigger a new export (RuntimeError when the
response carries no truthy taskId), poll it, and on success download it,
producing the delta keyed to now. -/
def Jira.create_new_backup (env : JiraEnv) (now : Int) : JRun JiraDelta × List JEffect :=
  match env.triggerTaskId with
  | none => (JRun.err JError.noTaskIdFromTrigger, [JEffect.trigger])
  | some tid =>
    if tid = 0 then (JRun.err JError.noTaskIdFromTrigger, [JEffect.trigger])
    else
      match Jira.wait_for_completion env tid with
      | (JRun.ok true, effs) =>
        match Jira.download_backup_file env tid with
        | (JRun.ok f, effs2) =>
          (JRun.ok (JiraDelta.mk (some now) (some tid) (some f)),
            JEffect.trigger :: (effs ++ effs2))
        | (JRun.err e, effs2) => (JRun.err e, JEffect.trigger :: (effs ++ effs2))
        | (JRun.hang, effs2) => (JRun.hang, JEffect.trigger :: (effs ++ effs2))
      | (JRun.ok false, effs) => (JRun.ok emptyJiraDelta, JEffect.trigger :: effs)
      | (JRun.err e, effs) => (JRun.err e, JEffect.trigger :: effs)
      | (JRun.hang, effs) => (JRun.hang, JEffect.trigger :: effs)

/-- process_backup, jira/client.py lines 32-66: fetch the server last task
id; short-circuit to an empty delta when it is not None, equals the local
id and a local file is recorded (line 50); otherwise consult the existing
task when the server id is truthy, and fall through to a new backup when
the delta is still empty (line 63). -/
def Jira.process_backup (env : JiraEnv) (st : MemStatus) (now : Int) :
    JRun JiraDelta × List JEffect :=
  let serverTaskId := Jira.fetch_last_task_id env
  if serverTaskId.isSome && (serverTaskId == st.jira_task_id && optStrTruthy st.jira_file) then
    (JRun.ok emptyJiraDelta, [])
  else
    let step1 :=
      match serverTaskId with
      | some t => if t = 0 then (JRun.ok emptyJiraDelta, []) else Jira.check_existing_task env t now
      | none => (JRun.ok emptyJiraDelta, [])
    match step1 with
    | (JRun.ok d, e1) =>
      if d.isEmpty then
        let step2 := Jira.create_new_backup env now
        (step2.1, e1 ++ step2.2)
      else (JRun.ok d, e1)
    | (JRun.err e, e1) => (JRun.err e, e1)
    | (JRun.hang, e1) => (JRun.hang, e1)

/-- C1: when the server last task id exists, equals the locally recorded
jira_task_id and a local jira_file path is recorded (a nonempty string),
process_backup returns an empty delta and performs no trigger, poll,
progress query or download; in particular a second reconcile right after a
successful one, with no server-side change, yields an empty delta. -/
theorem claim_C1 (env : JiraEnv) (st : MemStatus) (now t : Int) (f : String)
    (hfetch : env.fetchResult = FetchOutcome.taskId t)
    (hlocal : st.jira_task_id = some t)
    (hfile : st.jira_file = some f) (hne : f ≠ "") :
    Jira.process_backup env st now = (JRun.ok emptyJiraDelta, []) := by
  simp [Jira.process_backup, Jira.fetch_last_task_id, hfetch, hlocal, hfile, optStrTruthy, hne]

/-- Concrete environment exercising the C1 short-circuit: the server last
task id equals the locally recorded one and a local file is recorded. -/
def envC1 : JiraEnv :=
  { fetchResult := FetchOutcome.taskId 3
    submittedMs := fun _ => some 500
    pollResps := fun _ => [PollResp.mk 0 "COMPLETE"]
    triggerTaskId := some 4
    progressResult := fun _ => some "export/download/jira.zip"
    downloadOk := fun _ => true
    backupPath := "jira-backup-2026-10-12.zip" }

theorem claim_C1_witness :
    Jira.process_backup envC1 (MemStatus.mk (some 3) (some "jira-backup-2026-10-12.zip")) 1000 =
      (JRun.ok emptyJiraDelta, []) :=
  claim_C1 envC1 (MemStatus.mk (some 3) (some "jira-backup-2026-10-12.zip")) 1000 3
    "jira-backup-2026-10-12.zip" rfl rfl rfl (by decide)

/-- C5 (amended): when the lastTaskId fetch fails, fetch_last_task_id
catches the exception and returns none, and process_backup then behaves
exactly as if no server task existed: it falls through to
_create_new_backup (triggering a new export) instead of returning early;
the fetch failure itself never propagates. -/
theorem claim_C5 (env : JiraEnv) (st : MemStatus) (now : Int)
    (h : env.fetchResult = FetchOutcome.netError) :
    Jira.fetch_last_task_id env = none ∧
    Jira.process_backup env st now = Jira.create_new_backup env now := by
  constructor
  · simp [Jira.fetch_last_task_id, h]
  · simp [Jira.process_backup, Jira.fetch_last_task_id, h, optStrTruthy, emptyJiraDelta,
      JiraDelta.isEmpty]

/-- Concrete environment for C5: the metadata fetch fails, the triggered
replacement backup succeeds. -/
def envC5 : JiraEnv :=
  { fetchResult := FetchOutcome.netError
    submittedMs := fun _ => none
    pollResps := fun _ => [PollResp.mk 0 "COMPLETE"]
    triggerTaskId := some 7
    progressResult := fun _ => some "export/download/jira.zip"
    downloadOk := fun _ => true
    backupPath := "jira-backup-2026-10-12.zip" }

/-- C5 counterexample: with the lastTaskId fetch failing, the reconcile
does not return an empty delta — it triggers a new export and returns the
full new-backup delta, performing trigger, poll and download calls. -/
theorem claim_C5_counterexample :
    Jira.process_backup envC5 {} 1000 =
      (JRun.ok (JiraDelta.mk (some 1000) (some 7) (some "jira-backup-2026-10-12.zip")),
       [JEffect.trigger, JEffect.poll 7, JEffect.progressQuery 7, JEffect.download 7]) ∧
    (Jira.process_backup envC5 {} 1000).1 ≠ JRun.ok emptyJiraDelta ∧
    JEffect.trigger ∈ (Jira.process_backup envC5 {} 1000).2 := by
  refine ⟨by decide, by decide, by decide⟩

theorem claim_C5_witness :
    Jira.fetch_last_task_id envC5 = none ∧
    Jira.process_backup envC5 {} 1000 = Jira.create_new_backup envC5 1000 :=
  claim_C5 envC5 {} 1000 rfl

/-- C6: for an existing server task (id t, not short-circuited at line 50)
whose submitted timestamp is s — if now - s is at most 24 hours the task is
reused: it is polled to a terminal status and, on success, downloaded, the
delta setting last_jira_backup = s (the submitted instant), jira_task_id = t
and jira_file; if now - s exceeds 24 hours the reconcile instead triggers a
new export, and any non-empty delta the new-backup path returns carries
last_jira_backup = now. -/
theorem claim_C6 (env : JiraEnv) (st : MemStatus) (now t s : Int) (r : String)
    (effs : List JEffect)
    (hfetch : env.fetchResult = FetchOutcome.taskId t) (ht : t ≠ 0)
    (hskip : (((some t : Option Int) == st.jira_task_id) && optStrTruthy st.jira_file) = false)
    (hsub : env.submittedMs t = some s) (hs : s ≠ 0) :
    (now - s ≤ 86400000 →
      Jira.wait_for_completion env t = (JRun.ok true, effs) →
      env.progressResult t = some r → r ≠ "" → env.downloadOk t = true →
      Jira.process_backup env st now =
        (JRun.ok (JiraDelta.mk (some s) (some t) (some env.backupPath)),
         effs ++ [JEffect.progressQuery t, JEffect.download t])) ∧
    (86400000 < now - s →
      Jira.process_backup env st now = Jira.create_new_backup env now ∧
      (∀ d es, Jira.create_new_backup env now = (JRun.ok d, es) → d.isEmpty = false →
        d.last_jira_backup = some now)) := by
  constructor
  · intro h24 hw hr hrne hdl
    simp [Jira.process_backup, Jira.fetch_last_task_id, hfetch, hskip, ht,
      Jira.check_existing_task, hsub, hs, h24, hw, Jira.download_backup_file, hr, hrne, hdl,
      JiraDelta.isEmpty]
  · intro h24
    have hle : ¬(now - s ≤ 86400000) := by omega
    constructor
    · simp [Jira.process_backup, Jira.fetch_last_task_id, hfetch, hskip, ht,
        Jira.check_existing_task, hsub, hs, hle, emptyJiraDelta, JiraDelta.isEmpty]
    · intro d es hc hne
      rcases htr : env.triggerTaskId with _ | tid
      · simp [Jira.create_new_backup, htr] at hc
      · by_cases h0 : tid = 0
        · simp [Jira.create_new_backup, htr, h0] at hc
        · rcases hwp : Jira.wait_for_completion env tid with ⟨o, effs3⟩
          cases o with
          | ok b =>
            cases b with
            | true =>
              rcases hdp : Jira.download_backup_file env tid with ⟨od, effs4⟩
              cases od with
              | ok f =>
                simp [Jira.create_new_backup, htr, h0, hwp, hdp] at hc
                rw [← hc.1]
              | err e2 => simp [Jira.create_new_backup, htr, h0, hwp, hdp] at hc
              | hang => simp [Jira.create_new_backup, htr, h0, hwp, hdp] at hc
            | false =>
              simp [Jira.create_new_backup, htr, h0, hwp] at hc
              rw [← hc.1] at hne
              simp [emptyJiraDelta, JiraDelta.isEmpty] at hne
          | err e2 => simp [Jira.create_new_backup, htr, h0, hwp] at hc
          | hang => simp [Jira.create_new_backup, htr, h0, hwp] at hc

/-- Concrete environment for C6: server task 5 submitted at 1000 ms, new
exports get task id 9, polls complete immediately. -/
def envC6 : JiraEnv :=
  { fetchResult := FetchOutcome.taskId 5
    submittedMs := fun t => if t = 5 then some 1000 else none
    pollResps := fun _ => [PollResp.mk 0 "COMPLETE"]
    triggerTaskId := some 9
    progressResult := fun _ => some "export/download/jira.zip"
    downloadOk := fun _ => true
    backupPath := "jira-backup-2026-10-12.zip" }

theorem claim_C6_witness :
    Jira.process_backup envC6 {} 86400000 =
      (JRun.ok (JiraDelta.mk (some 1000) (some 5) (some "jira-backup-2026-10-12.zip")),
       [JEffect.poll 5, JEffect.progressQuery 5, JEffect.download 5]) ∧
    Jira.process_backup envC6 {} 86402000 = Jira.create_new_backup envC6 86402000 :=
  ⟨(claim_C6 envC6 {} 86400000 5 1000 "export/download/jira.zip" [JEffect.poll 5]
      rfl (by decide) (by decide) rfl (by decide)).1 (by decide) rfl rfl (by decide) rfl,
   ((claim_C6 envC6 {} 86402000 5 1000 "export/download/jira.zip" [JEffect.poll 5]
      rfl (by decide) (by decide) rfl (by decide)).2 (by decide)).1⟩

/-! ## Confluence client: confluence/client.py

The getprogress.json payload is modelled by a descriptor whose fields are
typed per the JSON the API returns; the time field may be a number (epoch
milliseconds) or a string, the latter capturing the TypeError path of
_can_use_existing_backup (a string divided by 1000 raises TypeError, which
is caught and treated as not reusable). -/

/-- Value of the time field of the Confluence progress payload. -/
inductive TimeVal where
  | num (n : Int)
  | str (s : String)
  deriving DecidableEq, Repr

/-- The getprogress.json payload as consumed by the Confluence client:
time, isOutdated, currentStatus, filename; every field may be absent. -/
structure ConfDescriptor where
  time : Option TimeVal := none
  isOutdated : Option Bool := none
  currentStatus : Option String := none
  filename : Option String := none
  deriving DecidableEq, Repr

/-- Errors the Confluence client can raise: a non-skippable HTTPError from
the status endpoint, an exception without a response attribute, the
TypeError of an invalid time value in _use_existing_backup line 252, and a
failure propagated out of download_file. -/
inductive CError where
  | http (status : Nat)
  | other
  | typeError
  | downloadError
  deriving DecidableEq, Repr

/-- Result of a Confluence client operation: a value, a raised error, or
divergence of an unbounded poll loop. -/
inductive CRun (α : Type) where
  | ok (a : α)
  | err (e : CError)
  | hang
  deriving DecidableEq, Repr

/-- Externally visible calls of the Confluence client beyond the initial
status query: the runbackup POST, each getprogress poll, the file download. -/
inductive CEffect where
  | trigger
  | poll
  | download
  deriving DecidableEq, Repr

/-- How the initial GET getprogress.json of get_backup_status ends: 204 No
Content, a JSON payload, an HTTPError with a status code, or an exception
carrying no response attribute. -/
inductive ConfStatusResp where
  | noContent
  | payload (d : ConfDescriptor)
  | httpError (status : Nat)
  | otherError
  deriving DecidableEq, Repr

/-- The remote environment of one Confluence reconcile run: the initial
status response, the optional error of the runbackup POST, the observed
getprogress responses of the wait_for_completion loop and of the
_wait_for_complete_status loop, whether download_file succeeds, the
instance base URL and the local path from prepare_backup_path. -/
structure ConfEnv where
  statusResp : ConfStatusResp
  triggerError : Option CError
  pollResps : List ConfDescriptor
  fileResps : List ConfDescriptor
  downloadOk : Bool
  url : String
  backupPath : String

/-- Status delta returned by the Confluence reconcile. -/
structure ConfDelta where
  last_confluence_backup : Option Int := none
  confluence_file : Option String := none
  deriving DecidableEq, Repr

def emptyConfDelta : ConfDelta := {}

/-- get_backup_status, confluence/client.py lines 55-76: 204 means
unavailable (none); an HTTPError whose status is 401, 403 or 404 is caught
and also yields none; every other error is re-raised. -/
def Confluence.get_backup_status (r : ConfStatusResp) : Except CError (Option ConfDescriptor) :=
  match r with
  | ConfStatusResp.noContent => Except.ok none
  | ConfStatusResp.payload d => Except.ok (some d)
  | ConfStatusResp.httpError s =>
    if s = 401 ∨ s = 403 ∨ s = 404 then Except.ok none else Except.error (CError.http s)
  | ConfStatusResp.otherError => Except.error CError.other

/-- _can_use_existing_backup, confluence/client.py lines 215-239: a falsy
time field (absent or zero) is not reusable; a string time raises TypeError
inside the try, caught and not reusable; a numeric time is reusable iff
isOutdated (defaulting to true when absent) is false, the timestamp is
strictly later than now minus 7 days, and currentStatus equals COMPLETE. -/
def Confluence.can_use_existing_backup (d : ConfDescriptor) (now : Int) : Bool :=
  match d.time with
  | none => false
  | some (TimeVal.str _) => false
  | some (TimeVal.num n) =>
    if n = 0 then false
    else !(d.isOutdated.getD true) && decide (now - 604800000 < n)
      && (d.currentStatus == some "COMPLETE")

/-- The while-True loop of wait_for_completion, confluence/client.py
lines 112-127: COMPLETE is terminal success, FAILED and ERROR terminal
failure, anything else keeps polling. -/
def Confluence.waitGo : List ConfDescriptor → CRun Bool × List CEffect
  | [] => (CRun.hang, [])
  | d :: ds =>
    if d.currentStatus.getD "" = "COMPLETE" then (CRun.ok true, [CEffect.poll])
    else if d.currentStatus.getD "" = "FAILED" ∨ d.currentStatus.getD "" = "ERROR" then
      (CRun.ok false, [CEffect.poll])
    else
      let rest := Confluence.waitGo ds
      (rest.1, CEffect.poll :: rest.2)

/-- wait_for_completion, confluence/client.py lines 103-127. -/
def Confluence.wait_for_completion (env : ConfEnv) : CRun Bool × List CEffect :=
  Confluence.waitGo env.pollResps

/-- The while-True loop of _wait_for_complete_status, confluence/client.py
lines 150-172: returns the payload on COMPLETE, none on FAILED or ERROR. -/
def Confluence.fileGo : List ConfDescriptor → CRun (Option ConfDescriptor) × List CEffect
  | [] => (CRun.hang, [])
  | d :: ds =>
    if d.currentStatus.getD "" = "COMPLETE" then (CRun.ok (some d), [CEffect.poll])
    else if d.currentStatus.getD "" = "FAILED" ∨ d.currentStatus.getD "" = "ERROR" then
      (CRun.ok none, [CEffect.poll])
    else
      let rest := Confluence.fileGo ds
      (rest.1, CEffect.poll :: rest.2)

/-- _get_download_details, confluence/client.py lines 174-198: a falsy
filename field yields none, otherwise the download URL (base URL joined
with the server-supplied relative name; the base is taken already stripped
of trailing slashes) and the local backup path. -/
def Confluence.get_download_details (env : ConfEnv) (d : ConfDescriptor) :
    Option (String × String) :=
  match d.filename with
  | none => none
  | some f => if f = "" then none else some (env.url ++ "/" ++ f, env.backupPath)

/-- wait_for_file, confluence/client.py lines 129-148 together with
_download_backup_file lines 200-213: wait for COMPLETE (none on a failed
backup), resolve the download details (none when the filename is missing),
then download; a download failure propagates as an exception. -/
def Confluence.wait_for_file (env : ConfEnv) : CRun (Option String) × List CEffect :=
  match Confluence.fileGo env.fileResps with
  | (CRun.ok none, effs) => (CRun.ok none, effs)
  | (CRun.ok (some d), effs) =>
    match Confluence.get_download_details env d with
    | none => (CRun.ok none, effs)
    | some details =>
      if env.downloadOk then (CRun.ok (some details.2), effs ++ [CEffect.download])
      else (CRun.err CError.downloadError, effs ++ [CEffect.download])
  | (CRun.err e, effs) => (CRun.err e, effs)
  | (CRun.hang, effs) => (CRun.hang, effs)

/-- _use_existing_backup, confluence/client.py lines 241-263: convert the
time field (TypeError here is not caught), download via wait_for_file, and
key the delta to the remote timestamp when a truthy file path came back. -/
def Confluence.use_existing_backup (env : ConfEnv) (d : ConfDescriptor) :
    CRun ConfDelta × List CEffect :=
  match d.time with
  | some (TimeVal.num n) =>
    match Confluence.wait_for_file env with
    | (CRun.ok (some f), effs) =>
      if f = "" then (CRun.ok emptyConfDelta, effs)
      else (CRun.ok (ConfDelta.mk (some n) (some f)), effs)
    | (CRun.ok none, effs) => (CRun.ok emptyConfDelta, effs)
    | (CRun.err e, effs) => (CRun.err e, effs)
    | (CRun.hang, effs) => (CRun.hang, effs)
  | _ => (CRun.err CError.typeError, [])

/-- _create_new_backup, confluence/client.py lines 265-284 together with
trigger_backup lines 78-101: POST runbackup, poll to a terminal status,
resolve and download the file, and key the delta to now when a truthy file
path came back. -/
def Confluence.create_new_backup (env : ConfEnv) (now : Int) :
    CRun ConfDelta × List CEffect :=
  match env.triggerError with
  | some e => (CRun.err e, [CEffect.trigger])
  | none =>
    match Confluence.wait_for_completion env with
    | (CRun.ok true, effs) =>
      match Confluence.wait_for_file env with
      | (CRun.ok (some f), effs2) =>
        if f = "" then (CRun.ok emptyConfDelta, CEffect.trigger :: (effs ++ effs2))
        else (CRun.ok (ConfDelta.mk (some now) (some f)), CEffect.trigger :: (effs ++ effs2))
      | (CRun.ok none, effs2) => (CRun.ok emptyConfDelta, CEffect.trigger :: (effs ++ effs2))
      | (CRun.err e, effs2) => (CRun.err e, CEffect.trigger :: (effs ++ effs2))
      | (CRun.hang, effs2) => (CRun.hang, CEffect.trigger :: (effs ++ effs2))
    | (CRun.ok false, effs) => (CRun.ok emptyConfDelta, CEffect.trigger :: effs)
    | (CRun.err e, effs) => (CRun.err e, CEffect.trigger :: effs)
    | (CRun.hang, effs) => (CRun.hang, CEffect.trigger :: effs)

/-- process_backup, confluence/client.py lines 32-53: query the status
descriptor, skip with an empty delta when Confluence is unavailable,
otherwise reuse the existing backup when the reusability test passes and
trigger a new one otherwise.  The loaded status map is never read. -/
def Confluence.process_backup (env : ConfEnv) (now : Int) : CRun ConfDelta × List CEffect :=
  match Confluence.get_backup_status env.statusResp with
  | Except.error e => (CRun.err e, [])
  | Except.ok none => (CRun.ok emptyConfDelta, [])
  | Except.ok (some d) =>
    if Confluence.can_use_existing_backup d now then Confluence.use_existing_backup env d
    else Confluence.create_new_backup env now

/-- C7: the Confluence reusability test returns true iff the time field is
a parsed (nonzero numeric) timestamp with is_outdated equal to false, the
timestamp strictly later than now minus 7 days, and currentStatus equal to
COMPLETE; any failure to parse the remote timestamp (field absent, zero or
not a number) makes the descriptor not reusable. -/
theorem claim_C7 (d : ConfDescriptor) (now : Int) :
    Confluence.can_use_existing_backup d now = true ↔
      ∃ n, d.time = some (TimeVal.num n) ∧ n ≠ 0 ∧ d.isOutdated = some false ∧
        now - 604800000 < n ∧ d.currentStatus = some "COMPLETE" := by
  rcases d with ⟨time, iso, cs, fn⟩
  rcases time with _ | tv
  · simp [Confluence.can_use_existing_backup]
  · rcases tv with n | s
    · by_cases hn : n = 0
      · subst hn
        simp [Confluence.can_use_existing_backup]
      · rcases iso with _ | b
        · simp [Confluence.can_use_existing_backup, hn]
        · rcases b with _ | _ <;>
            simp [Confluence.can_use_existing_backup, hn, and_assoc, beq_iff_eq]
    · simp [Confluence.can_use_existing_backup]

theorem claim_C7_witness :
    Confluence.can_use_existing_backup
      (ConfDescriptor.mk (some (TimeVal.num 603000000)) (some false) (some "COMPLETE")
        (some "backup.zip")) 604800000 = true :=
  (claim_C7 (ConfDescriptor.mk (some (TimeVal.num 603000000)) (some false) (some "COMPLETE")
      (some "backup.zip")) 604800000).2
    ⟨603000000, rfl, by decide, rfl, by decide, rfl⟩

/-- C8: when the Confluence status endpoint returns 204, or fails with
HTTP 401, 403 or 404, the Confluence reconcile returns an empty delta
having made no trigger, poll or download calls; any other HTTP error from
the status endpoint is raised instead. -/
theorem claim_C8 (env : ConfEnv) (now : Int) (s : Nat) :
    (env.statusResp = ConfStatusResp.noContent →
      Confluence.process_backup env now = (CRun.ok emptyConfDelta, [])) ∧
    (env.statusResp = ConfStatusResp.httpError s →
      ((s = 401 ∨ s = 403 ∨ s = 404) →
        Confluence.process_backup env now = (CRun.ok emptyConfDelta, [])) ∧
      (¬(s = 401 ∨ s = 403 ∨ s = 404) →
        Confluence.process_backup env now = (CRun.err (CError.http s), []))) := by
  refine ⟨?_, ?_⟩
  · intro h
    simp [Confluence.process_backup, Confluence.get_backup_status, h]
  · intro h
    refine ⟨?_, ?_⟩
    · intro hs
      simp [Confluence.process_backup, Confluence.get_backup_status, h, hs]
    · intro hs
      simp [Confluence.process_backup, Confluence.get_backup_status, h, hs]

/-- Concrete environments for C8: the status endpoint reports 204 in the
first and a plain 500 failure in the second. -/
def envC8a : ConfEnv :=
  { statusResp := ConfStatusResp.noContent
    triggerError := none
    pollResps := [ConfDescriptor.mk none none (some "COMPLETE") (some "f.zip")]
    fileResps := [ConfDescriptor.mk none none (some "COMPLETE") (some "f.zip")]
    downloadOk := true
    url := "https://example.atlassian.net"
    backupPath := "confluence-backup-2026-10-12.zip" }

def envC8b : ConfEnv :=
  { statusResp := ConfStatusResp.httpError 500
    triggerError := none
    pollResps := []
    fileResps := []
    downloadOk := true
    url := "https://example.atlassian.net"
    backupPath := "confluence-backup-2026-10-12.zip" }

theorem claim_C8_witness :
    Confluence.process_backup envC8a 1000 = (CRun.ok emptyConfDelta, []) ∧
    Confluence.process_backup envC8b 1000 = (CRun.err (CError.http 500), []) :=
  ⟨(claim_C8 envC8a 1000 500).1 rfl,
   ((claim_C8 envC8b 1000 500).2 rfl).2 (by decide)⟩

/-! ## Status persistence: utils/file_utils.py, FileManager

The status file content is a JSON object, modelled as an association list
of keys to JSON values; the in-memory status map after loading holds
either raw JSON values or parsed datetimes.  The ISO-8601 parser
datetime.fromisoformat is passed in as an oracle since only its success
or failure matters to the control flow. -/

/-- A JSON value as found in the status file. -/
inductive JVal where
  | str (s : String)
  | num (n : Int)
  | boolean (b : Bool)
  | null
  deriving DecidableEq, Repr

/-- A value of the in-memory status map after load_status: either the raw
JSON value or a parsed datetime (epoch milliseconds). -/
inductive LoadedVal where
  | raw (v : JVal)
  | dt (t : Int)
  deriving DecidableEq, Repr

/-- Per-entry transformation of load_status, file_utils.py lines 60-65:
for the two timestamp keys, a string value is parsed — on success it is
replaced by the datetime, on ValueError a warning is logged and the value
is left in place unchanged; a non-string value makes fromisoformat raise
TypeError, which the except clause (ValueError only) does not catch.
Every other key is left untouched. -/
def loadEntry (parseIso : String → Option Int) (k : String) (v : JVal) :
    Except Unit (String × LoadedVal) :=
  if k = "last_jira_backup" ∨ k = "last_confluence_backup" then
    match v with
    | JVal.str s =>
      match parseIso s with
      | some t => Except.ok (k, LoadedVal.dt t)
      | none => Except.ok (k, LoadedVal.raw (JVal.str s))
    | _ => Except.error ()
  else Except.ok (k, LoadedVal.raw v)

/-- Transformation of the whole loaded JSON object, entry by entry. -/
def loadEntries (p : String → Option Int) :
    List (String × JVal) → Except Unit (List (String × LoadedVal))
  | [] => Except.ok []
  | (k, v) :: rest =>
    match loadEntry p k v with
    | Except.error e => Except.error e
    | Except.ok kv =>
      match loadEntries p rest with
      | Except.error e => Except.error e
      | Except.ok l => Except.ok (kv :: l)

/-- load_status, file_utils.py lines 50-66: a missing status file yields
the empty map, an existing one is parsed and its timestamp fields
converted in place. -/
def FileManager.load_status (p : String → Option Int)
    (file : Option (List (String × JVal))) : Except Unit (List (String × LoadedVal)) :=
  match file with
  | none => Except.ok []
  | some data => loadEntries p data

theorem loadEntries_mem (p : String → Option Int) :
    ∀ (l : List (String × JVal)) (out : List (String × LoadedVal)),
      loadEntries p l = Except.ok out →
      ∀ k v, (k, v) ∈ l → ∀ kv, loadEntry p k v = Except.ok kv → kv ∈ out := by
  intro l
  induction l with
  | nil => intro out hout k v hm; simp at hm
  | cons hd tl ih =>
    intro out hout k v hm kv hkv
    rcases hd with ⟨k0, v0⟩
    rw [List.mem_cons] at hm
    rcases hm with hm | hm
    · rw [Prod.mk.injEq] at hm
      obtain ⟨h1, h2⟩ := hm
      subst h1; subst h2
      rcases he : loadEntry p k v with _ | kv0
      · simp [he] at hkv
      · rcases ht : loadEntries p tl with _ | l2
        · simp [loadEntries, he, ht] at hout
        · simp [loadEntries, he, ht] at hout
          simp [he] at hkv
          subst hout; subst hkv
          exact List.mem_cons_self _ _
    · rcases he : loadEntry p k0 v0 with _ | kv0
      · simp [loadEntries, he] at hout
      · rcases ht : loadEntries p tl with _ | l2
        · simp [loadEntries, he, ht] at hout
        · simp [loadEntries, he, ht] at hout
          subst hout
          exact List.mem_cons_of_mem _ (ih l2 ht k v hm kv hkv)

/-- C9 (amended): a missing status file loads as the empty map, and a
timestamp field whose string value fails to parse is kept in the loaded
map with its raw string value after a warning — it is not dropped and no
error is raised for it. -/
theorem claim_C9 (p : String → Option Int) (l : List (String × JVal)) (k s : String)
    (hk : k = "last_jira_backup" ∨ k = "last_confluence_backup")
    (hmem : (k, JVal.str s) ∈ l) (hp : p s = none) :
    FileManager.load_status p none = Except.ok [] ∧
    ∀ out, FileManager.load_status p (some l) = Except.ok out →
      (k, LoadedVal.raw (JVal.str s)) ∈ out := by
  refine ⟨rfl, ?_⟩
  intro out hout
  have he : loadEntry p k (JVal.str s) = Except.ok (k, LoadedVal.raw (JVal.str s)) := by
    simp [loadEntry, hk, hp]
  exact loadEntries_mem p l out hout k (JVal.str s) hmem _ he

/-- C9 counterexample: a last_jira_backup value that fails to parse is not
dropped from the loaded map — the key survives, bound to the raw string. -/
theorem claim_C9_counterexample :
    FileManager.load_status (fun _ => none)
        (some [("last_jira_backup", JVal.str "not-a-timestamp")]) =
      Except.ok [("last_jira_backup", LoadedVal.raw (JVal.str "not-a-timestamp"))] ∧
    "last_jira_backup" ∈
      [("last_jira_backup", LoadedVal.raw (JVal.str "not-a-timestamp"))].map Prod.fst := by
  refine ⟨by rfl, by decide⟩

theorem claim_C9_witness :
    (FileManager.load_status (fun _ => none) none = Except.ok []) ∧
    ("last_jira_backup", LoadedVal.raw (JVal.str "oops")) ∈
      [("last_jira_backup", LoadedVal.raw (JVal.str "oops"))] :=
  ⟨(claim_C9 (fun _ => none) [("last_jira_backup", JVal.str "oops")] "last_jira_backup"
      "oops" (Or.inl rfl) (by decide) rfl).1,
   (claim_C9 (fun _ => none) [("last_jira_backup", JVal.str "oops")] "last_jira_backup"
      "oops" (Or.inl rfl) (by decide) rfl).2 _ rfl⟩

/-- A value of the in-memory status map handed to save_status: a datetime
(epoch milliseconds), an integer, a string, or None. -/
inductive MVal where
  | dt (t : Int)
  | num (n : Int)
  | str (s : String)
  | null
  deriving DecidableEq, Repr

/-- Abstraction of datetime.isoformat: an injective rendering of the
timestamp; the concrete ISO-8601 text is irrelevant to the claims. -/
def isoformat (t : Int) : String := toString t

/-- The Jira block of save_status, file_utils.py lines 71-74: present iff
last_jira_backup is a key; calling isoformat on a non-datetime value
raises AttributeError. -/
def jiraPart (status : List (String × MVal)) : Except Unit (List (String × MVal)) :=
  match status.lookup "last_jira_backup" with
  | none => Except.ok []
  | some (MVal.dt t) =>
    Except.ok [("last_jira_backup", MVal.str (isoformat t)),
               ("jira_task_id", (status.lookup "jira_task_id").getD MVal.null),
               ("jira_file", (status.lookup "jira_file").getD MVal.null)]
  | some _ => Except.error ()

/-- The Confluence block of save_status, file_utils.py lines 75-77. -/
def confPart (status : List (String × MVal)) : Except Unit (List (String × MVal)) :=
  match status.lookup "last_confluence_backup" with
  | none => Except.ok []
  | some (MVal.dt t) =>
    Except.ok [("last_confluence_backup", MVal.str (isoformat t)),
               ("confluence_file", (status.lookup "confluence_file").getD MVal.null)]
  | some _ => Except.error ()

/-- save_status, file_utils.py lines 68-84: build the to_save object from
the two optional blocks and write it out. -/
def FileManager.save_status (status : List (String × MVal)) :
    Except Unit (List (String × MVal)) :=
  match jiraPart status with
  | Except.error e => Except.error e
  | Except.ok p1 =>
    match confPart status with
    | Except.error e => Except.error e
    | Except.ok p2 => Except.ok (p1 ++ p2)

/-- C10: every object save_status actually writes draws its keys from the
five known status fields, contains a jira_file or jira_task_id entry only
together with last_jira_backup, and a confluence_file entry only together
with last_confluence_backup. -/
theorem claim_C10 (status : List (String × MVal)) (out : List (String × MVal))
    (h : FileManager.save_status status = Except.ok out) :
    out.map Prod.fst ⊆ ["last_jira_backup", "jira_task_id", "jira_file",
      "last_confluence_backup", "confluence_file"] ∧
    (("jira_file" ∈ out.map Prod.fst ∨ "jira_task_id" ∈ out.map Prod.fst) →
      "last_jira_backup" ∈ out.map Prod.fst) ∧
    ("confluence_file" ∈ out.map Prod.fst →
      "last_confluence_backup" ∈ out.map Prod.fst) := by
  rcases hj : status.lookup "last_jira_backup" with _ | vj
  · rcases hc : status.lookup "last_confluence_backup" with _ | vc
    · simp [FileManager.save_status, jiraPart, confPart, hj, hc] at h
      subst h
      simp
    · cases vc with
      | dt t =>
        simp [FileManager.save_status, jiraPart, confPart, hj, hc] at h
        subst h
        simp
      | num n => simp [FileManager.save_status, jiraPart, confPart, hj, hc] at h
      | str s => simp [FileManager.save_status, jiraPart, confPart, hj, hc] at h
      | null => simp [FileManager.save_status, jiraPart, confPart, hj, hc] at h
  · cases vj with
    | dt t =>
      rcases hc : status.lookup "last_confluence_backup" with _ | vc
      · simp [FileManager.save_status, jiraPart, confPart, hj, hc] at h
        subst h
        simp
      · cases vc with
        | dt t2 =>
          simp [FileManager.save_status, jiraPart, confPart, hj, hc] at h
          subst h
          simp
        | num n => simp [FileManager.save_status, jiraPart, confPart, hj, hc] at h
        | str s => simp [FileManager.save_status, jiraPart, confPart, hj, hc] at h
        | null => simp [FileManager.save_status, jiraPart, confPart, hj, hc] at h
    | num n => simp [FileManager.save_status, jiraPart, hj] at h
    | str s => simp [FileManager.save_status, jiraPart, hj] at h
    | null => simp [FileManager.save_status, jiraPart, hj] at h

theorem claim_C10_witness :
    ([("last_jira_backup", MVal.str (isoformat 1000)),
      ("jira_task_id", MVal.num 5),
      ("jira_file", MVal.str "jira.zip")].map Prod.fst ⊆
        ["last_jira_backup", "jira_task_id", "jira_file",
         "last_confluence_backup", "confluence_file"]) ∧
    (("jira_file" ∈ [("last_jira_backup", MVal.str (isoformat 1000)),
        ("jira_task_id", MVal.num 5),
        ("jira_file", MVal.str "jira.zip")].map Prod.fst ∨
      "jira_task_id" ∈ [("last_jira_backup", MVal.str (isoformat 1000)),
        ("jira_task_id", MVal.num 5),
        ("jira_file", MVal.str "jira.zip")].map Prod.fst) →
      "last_jira_backup" ∈ [("last_jira_backup", MVal.str (isoformat 1000)),
        ("jira_task_id", MVal.num 5),
        ("jira_file", MVal.str "jira.zip")].map Prod.fst) ∧
    ("confluence_file" ∈ [("last_jira_backup", MVal.str (isoformat 1000)),
        ("jira_task_id", MVal.num 5),
        ("jira_file", MVal.str "jira.zip")].map Prod.fst →
      "last_confluence_backup" ∈ [("last_jira_backup", MVal.str (isoformat 1000)),
        ("jira_task_id", MVal.num 5),
        ("jira_file", MVal.str "jira.zip")].map Prod.fst) :=
  claim_C10 [("last_jira_backup", MVal.dt 1000), ("jira_task_id", MVal.num 5),
    ("jira_file", MVal.str "jira.zip"), ("extraneous_key", MVal.num 1)] _ rfl
